import Mathlib

/-!
Shallow embedding of the chore-tracking ledger application in `src/main.py`
(Flask app: users, chore templates, chore submissions, transactions).

Modelling conventions:
* Monetary values (Python floats holding currency amounts) are modelled as
  rationals (`ℚ`).
* Timestamps (`datetime`) are modelled as a calendar-day ordinal plus a
  time-of-day; `func.date(ts)` / `date.today()` is the `day` projection.
  Day ordinals are counted from a Monday, so Python's `date.weekday()`
  (Monday = 0) is `day % 7`.
* The database tables are modelled as in-memory lists inside a `Store`
  record; SQLAlchemy queries become `List.filter` / `List.find?` /
  `List.length`; autoincrement primary keys become explicit counters.
* Route handlers' form inputs become explicit arguments; `flash` messages
  become returned strings.
-/

namespace ChoreApp

/-- A `datetime` value: calendar-day ordinal (`func.date`) and time of day. -/
structure DateTime where
  day : Nat
  tod : Nat
deriving DecidableEq

/-- Python's `date.weekday()`: Monday = 0 … Sunday = 6. -/
def pyWeekday (day : Nat) : Nat := day % 7

/-- `main.py` (child_dashboard / submit_chore):
`db_weekday = (today.weekday() + 1) % 7`, i.e. Sunday = 0 … Saturday = 6. -/
def dbWeekday (day : Nat) : Nat := (pyWeekday day + 1) % 7

/-- The `user` table (credential hash omitted: not read by the core logic). -/
structure User where
  id : Nat
  username : String
  role : String
deriving DecidableEq

/-- The `chore_type` table (`date_created` omitted: never read). -/
structure ChoreType where
  id : Nat
  name : String
  description : String
  value : ℚ
  sunday_limit : Int
  monday_limit : Int
  tuesday_limit : Int
  wednesday_limit : Int
  thursday_limit : Int
  friday_limit : Int
  saturday_limit : Int
  active : Bool
deriving DecidableEq

/-- `ChoreType.get_limit_for_day` (main.py lines 177-191): index the
seven per-weekday limit fields with 0 = Sunday … 6 = Saturday.
(Python raises `IndexError` for indices outside 0..6; the model returns 0
there; all callers pass `dbWeekday`, which is < 7.) -/
def ChoreType.get_limit_for_day (c : ChoreType) (day_of_week : Nat) : Int :=
  [c.sunday_limit, c.monday_limit, c.tuesday_limit, c.wednesday_limit,
   c.thursday_limit, c.friday_limit, c.saturday_limit].getD day_of_week 0

/-- The `chore_submission` table. -/
structure ChoreSubmission where
  id : Nat
  user_id : Nat
  chore_type_id : Nat
  status : String
  date_submitted : DateTime
  date_approved : Option DateTime
  notes : Option String
deriving DecidableEq

/-- The `transaction` table. -/
structure Transaction where
  id : Nat
  user_id : Nat
  type : String
  description : String
  amount : ℚ
  date : DateTime
deriving DecidableEq

/-- The whole database, plus autoincrement counters for the two tables the
core logic inserts into. -/
structure Store where
  users : List User
  chore_types : List ChoreType
  submissions : List ChoreSubmission
  transactions : List Transaction
  next_sub_id : Nat
  next_txn_id : Nat
deriving DecidableEq

/-- Resolve a chore-type foreign key in a template table and read the
template's value.  (A dangling reference would be a crash in Python; the
model returns 0, and theorems needing the template carry an existence
hypothesis.) -/
def ctValue (cts : List ChoreType) (ctid : Nat) : ℚ :=
  match cts.find? (fun c => c.id == ctid) with
  | some c => c.value
  | none => 0

/-- Resolve a chore-type foreign key and read the template's name. -/
def ctName (cts : List ChoreType) (ctid : Nat) : String :=
  match cts.find? (fun c => c.id == ctid) with
  | some c => c.name
  | none => ""

/-- `submission.chore_type.value` on a store. -/
def Store.choreTypeValue (s : Store) (ctid : Nat) : ℚ :=
  ctValue s.chore_types ctid

/-- `submission.chore_type.name` on a store. -/
def Store.choreTypeName (s : Store) (ctid : Nat) : String :=
  ctName s.chore_types ctid

/-- Python's `str.strip()` (whitespace only, as used in `submit_chore`). -/
def strip (s : String) : String :=
  String.mk (((s.toList.dropWhile Char.isWhitespace).reverse.dropWhile
    Char.isWhitespace).reverse)

/-- Parse a nonempty all-digit character list as a natural number. -/
def digitsToNat? (cs : List Char) : Option Nat :=
  match cs with
  | [] => none
  | _ => cs.foldl
      (fun acc c => acc.bind (fun n =>
        if c.isDigit then some (10 * n + (c.toNat - 48)) else none))
      (some 0)

/-- Python's `float()` on plain decimal literals: optional sign, digits,
optional fractional part (`"5"`, `"-2.50"`, `"5."`, `".5"`).  Exponents,
`inf`/`nan`, underscores and surrounding whitespace are not modelled (no
claim or witness needs them). -/
def parseFloat? (str : String) : Option ℚ :=
  let cs := str.toList
  let sgn : ℚ := match cs with
    | '-' :: _ => -1
    | _ => 1
  let body : List Char := match cs with
    | '-' :: rest => rest
    | '+' :: rest => rest
    | _ => cs
  let whole := body.takeWhile (fun c => c ≠ '.')
  match body.dropWhile (fun c => c ≠ '.') with
  | [] => (digitsToNat? whole).map (fun n => sgn * n)
  | _ :: frac =>
    if whole = [] ∧ frac = [] then none
    else
      match (if whole = [] then some 0 else digitsToNat? whole),
            (if frac = [] then some 0 else digitsToNat? frac) with
      | some wn, some fn =>
          some (sgn * ((wn : ℚ) + (fn : ℚ) / ((10 : ℚ) ^ frac.length)))
      | _, _ => none

/-- The repeated "count this child's submissions of this chore type dated
today" query (main.py lines 503-507 and 596-600):
`ChoreSubmission.query.filter(user_id, chore_type_id,
func.date(date_submitted) == today).count()`. -/
def todayCount (s : Store) (uid ctid today : Nat) : Nat :=
  (s.submissions.filter (fun sub =>
    sub.user_id == uid && sub.chore_type_id == ctid &&
      sub.date_submitted.day == today)).length

/-- One entry of the `chore_availability` dictionary built by
`child_dashboard`. -/
structure Availability where
  can_submit : Bool
  today_count : Nat
  limit : Int
  remaining : Option Int
deriving DecidableEq

/-- `child_dashboard` (main.py lines 498-526): availability of one chore
type for one child on one day. -/
def chore_availability (s : Store) (uid today : Nat) (ct : ChoreType) :
    Availability :=
  let today_submissions := todayCount s uid ct.id today
  let limit := ct.get_limit_for_day (dbWeekday today)
  let can_submit := (limit == 0) || decide ((today_submissions : Int) < limit)
  let remaining :=
    if limit == 0 then none else some (max 0 (limit - today_submissions))
  ⟨can_submit, today_submissions, limit, remaining⟩

/-- `child_dashboard` (main.py lines 450-479): the child-facing balance.
The handler first collects this child's submissions (the sort order is
dropped: only sums are taken), then sums the template value over the
approved ones, and subtracts the sums of the `fine` and `payment`
transactions. -/
def child_dashboard_balance (s : Store) (uid : Nat) : ℚ :=
  let submissions := s.submissions.filter (fun sub => sub.user_id == uid)
  let approved_earnings :=
    ((submissions.filter (fun sub => sub.status == "approved")).map
      (fun sub => s.choreTypeValue sub.chore_type_id)).sum
  let fines := s.transactions.filter
    (fun t => t.user_id == uid && t.type == "fine")
  let total_fines := (fines.map Transaction.amount).sum
  let payments := s.transactions.filter
    (fun t => t.user_id == uid && t.type == "payment")
  let total_payments := (payments.map Transaction.amount).sum
  approved_earnings - total_fines - total_payments

/-- `parent_dashboard` (main.py lines 696-725): the parent-facing balance
for the child account `childId` (`all_approved` is queried with both
conditions in one `filter_by`). -/
def parent_dashboard_balance (s : Store) (childId : Nat) : ℚ :=
  let all_approved := s.submissions.filter
    (fun sub => sub.user_id == childId && sub.status == "approved")
  let approved_earnings :=
    (all_approved.map (fun sub => s.choreTypeValue sub.chore_type_id)).sum
  let fines := s.transactions.filter
    (fun t => t.user_id == childId && t.type == "fine")
  let total_fines := (fines.map Transaction.amount).sum
  let payments := s.transactions.filter
    (fun t => t.user_id == childId && t.type == "payment")
  let total_payments := (payments.map Transaction.amount).sum
  approved_earnings - total_fines - total_payments

/-- The spec's §3 formula, written from the spec's words for the
refinement comparison: `approved_earnings` = sum of the referenced
template's value over that account's approved submissions. -/
def spec_approved_earnings (s : Store) (uid : Nat) : ℚ :=
  ((s.submissions.filter
      (fun sub => sub.user_id == uid && sub.status == "approved")).map
    (fun sub => s.choreTypeValue sub.chore_type_id)).sum

/-- The spec's §3 formula: `total_fines` = sum of `fine` transaction
amounts of the account. -/
def spec_total_fines (s : Store) (uid : Nat) : ℚ :=
  ((s.transactions.filter
      (fun t => t.user_id == uid && t.type == "fine")).map
    Transaction.amount).sum

/-- The spec's §3 formula: `total_payments` = sum of `payment` transaction
amounts of the account. -/
def spec_total_payments (s : Store) (uid : Nat) : ℚ :=
  ((s.transactions.filter
      (fun t => t.user_id == uid && t.type == "payment")).map
    Transaction.amount).sum

/-- Outcome of one chore type's claim inside a `submit_chore` batch. -/
inductive ClaimOutcome where
  | skipped : ClaimOutcome
  | rejected : String → ClaimOutcome
  | admitted : Nat → Option String → ClaimOutcome
deriving DecidableEq

/-- The two structured rejection strings of `submit_chore`
(main.py lines 606-611). -/
def rejectionMsg (ct : ChoreType) (count remaining : Int) : String :=
  if remaining > 0 then
    ct.name ++ ": Only " ++ toString remaining ++
      " more allowed today (tried to submit " ++ toString count ++ ")"
  else
    ct.name ++ ": Daily limit already reached"

/-- The per-chore-type body of `submit_chore`'s loop
(main.py lines 566-612): skip absent / unparsable / non-positive counts
(the raw form value is modelled as `Option Int`: `none` stands for a
missing, empty or unparsable field, and the checkbox value `"on"` for
`some 1`); reject over-limit claims; otherwise admit `count` submissions.
The `today_submissions` count is taken against the batch-start store: the
handler's mid-batch count query filters on this chore type's id, and
earlier iterations add submissions only for other (distinct) ids. -/
def processClaim (s : Store) (uid today : Nat) (fc : Nat → Option Int)
    (fn : Nat → String) (ct : ChoreType) : ClaimOutcome :=
  match fc ct.id with
  | none => .skipped
  | some count =>
    if count ≤ 0 then .skipped
    else
      let notes := strip (fn ct.id)
      let limit := ct.get_limit_for_day (dbWeekday today)
      let remaining := limit - (todayCount s uid ct.id today : Int)
      if 0 < limit ∧ remaining < count then
        .rejected (rejectionMsg ct count remaining)
      else
        .admitted count.toNat (if notes = "" then none else some notes)

/-- The `for i in range(count)` inner loop of `submit_chore`
(main.py lines 615-622): `count` fresh pending submissions, all carrying
the same note. -/
def mkSubmissions (uid ctid : Nat) (now : DateTime) (notes : Option String)
    (firstId count : Nat) : List ChoreSubmission :=
  (List.range count).map (fun i =>
    { id := firstId + i, user_id := uid, chore_type_id := ctid,
      status := "pending", date_submitted := now, date_approved := none,
      notes := notes })

/-- One iteration of `submit_chore`'s loop, threading the accumulated
(new submissions, submitted chore names, error messages). -/
def submitStep (s : Store) (uid : Nat) (now : DateTime)
    (fc : Nat → Option Int) (fn : Nat → String)
    (acc : List ChoreSubmission × List String × List String)
    (ct : ChoreType) : List ChoreSubmission × List String × List String :=
  match processClaim s uid now.day fc fn ct with
  | .skipped => acc
  | .rejected msg => (acc.1, acc.2.1, acc.2.2 ++ [msg])
  | .admitted n notes =>
      (acc.1 ++ mkSubmissions uid ct.id now notes
         (s.next_sub_id + acc.1.length) n,
       acc.2.1 ++ List.replicate n ct.name,
       acc.2.2)

/-- `submit_chore` (main.py lines 546-644): iterate over the active chore
types, admit or reject each claim, and commit all created submissions.
Returns (new store, submitted chore names, error messages). -/
def submit_chore (s : Store) (uid : Nat) (now : DateTime)
    (fc : Nat → Option Int) (fn : Nat → String) :
    Store × List String × List String :=
  let res := (s.chore_types.filter (fun ct => ct.active)).foldl
    (submitStep s uid now fc fn) ([], [], [])
  ({ s with submissions := s.submissions ++ res.1,
            next_sub_id := s.next_sub_id + res.1.length },
   res.2.1, res.2.2)

/-- The submissions present in `t` beyond those of `s` (with
`t.submissions = s.submissions ++ new`) that reference chore type `tid`. -/
def newSubmissionsFor (s t : Store) (tid : Nat) : List ChoreSubmission :=
  (t.submissions.drop s.submissions.length).filter
    (fun sub => sub.chore_type_id == tid)

/-- `get_or_404` failure. -/
inductive ApproveError where
  | notFound : ApproveError
deriving DecidableEq

/-- `approve_submission` (main.py lines 914-942): look the submission up
(`get_or_404`); on success set its status to `"approved"`, stamp
`date_approved`, and append one `chore` transaction carrying the
template's current value — all committed in the single returned store.
(The handler mutates the one ORM object with this primary key; the model
maps the update over every list entry with this id, which is the same
thing since ids are unique keys.) -/
def approve_submission (s : Store) (now : DateTime) (sid : Nat) :
    Except ApproveError Store :=
  match s.submissions.find? (fun x => x.id == sid) with
  | none => .error .notFound
  | some sub =>
    .ok { s with
      submissions := s.submissions.map (fun x =>
        if x.id == sid then
          { x with status := "approved", date_approved := some now }
        else x),
      transactions := s.transactions ++
        [⟨s.next_txn_id, sub.user_id, "chore",
          "Approved: " ++ s.choreTypeName sub.chore_type_id,
          s.choreTypeValue sub.chore_type_id, now⟩],
      next_txn_id := s.next_txn_id + 1 }

/-- `add_fine` (main.py lines 951-988): find the child account; require a
non-empty description and amount; parse the amount; on success append one
`fine` transaction.  Returns the new store and the flash message. -/
def add_fine (s : Store) (description amount : Option String)
    (now : DateTime) : Store × String :=
  match s.users.find? (fun u => u.role == "child") with
  | none => (s, "No child account found")
  | some child =>
    match description, amount with
    | some d, some a =>
      if d ≠ "" ∧ a ≠ "" then
        match parseFloat? a with
        | some q =>
          ({ s with
             transactions := s.transactions ++
               [⟨s.next_txn_id, child.id, "fine", d, q, now⟩],
             next_txn_id := s.next_txn_id + 1 },
           "Fine added successfully!")
        | none => (s, "Invalid amount")
      else (s, "Please fill all fields")
    | _, _ => (s, "Please fill all fields")

/-- `add_payment` (main.py lines 997-1033): find the child account;
require an amount; parse it; on success append one `payment` transaction
with the fixed description `"Payment made"`. -/
def add_payment (s : Store) (amount : Option String) (now : DateTime) :
    Store × String :=
  match s.users.find? (fun u => u.role == "child") with
  | none => (s, "No child account found")
  | some child =>
    match amount with
    | some a =>
      if a ≠ "" then
        match parseFloat? a with
        | some q =>
          ({ s with
             transactions := s.transactions ++
               [⟨s.next_txn_id, child.id, "payment", "Payment made", q, now⟩],
             next_txn_id := s.next_txn_id + 1 },
           "Payment recorded!")
        | none => (s, "Invalid amount")
      else (s, "Please enter an amount")
    | none => (s, "Please enter an amount")

/-- The value-update portion of `edit_chore_type` (main.py line 845):
set the template's `value` field. -/
def set_template_value (s : Store) (ctid : Nat) (v : ℚ) : Store :=
  { s with chore_types := s.chore_types.map (fun c =>
      if c.id == ctid then { c with value := v } else c) }

/-! ### Concrete sample data, used to evaluate the development on closed
inputs. -/

/-- A sample instant: day ordinal 3 (a Thursday: `dbWeekday 3 = 4`). -/
def exNow : DateTime := ⟨3, 10⟩

def exParent : User := ⟨1, "mom", "parent"⟩

def exChild : User := ⟨7, "kid", "child"⟩

/-- "Clean Room": value 5, limit 1 every day, active. -/
def exCt1 : ChoreType :=
  ⟨1, "Clean Room", "Tidy up", 5, 1, 1, 1, 1, 1, 1, 1, true⟩

/-- "Dishes": value 3, limit 0 (unlimited) every day, active. -/
def exCt2 : ChoreType :=
  ⟨2, "Dishes", "Wash dishes", 3, 0, 0, 0, 0, 0, 0, 0, true⟩

/-- A deactivated chore type. -/
def exCt3 : ChoreType :=
  ⟨3, "Old chore", "retired", 2, 1, 1, 1, 1, 1, 1, 1, false⟩

/-- An approved submission of "Clean Room" from day 2. -/
def exSub1 : ChoreSubmission := ⟨1, 7, 1, "approved", ⟨2, 5⟩, some ⟨2, 6⟩, none⟩

/-- A pending submission of "Clean Room" dated day 3 (today). -/
def exSub2 : ChoreSubmission := ⟨2, 7, 1, "pending", ⟨3, 1⟩, none, none⟩

def exTxnChore : Transaction := ⟨1, 7, "chore", "Approved: Clean Room", 5, ⟨2, 6⟩⟩

def exTxnFine : Transaction := ⟨2, 7, "fine", "Lost book", 2, ⟨2, 7⟩⟩

def exTxnPay : Transaction := ⟨3, 7, "payment", "Payment made", 1, ⟨2, 8⟩⟩

/-- The main sample store: one parent, one child, three templates, two
submissions, three transactions. -/
def exStore : Store :=
  ⟨[exParent, exChild], [exCt1, exCt2, exCt3], [exSub1, exSub2],
   [exTxnChore, exTxnFine, exTxnPay], 10, 20⟩

/-- `exStore` with its (sole) `chore` transaction removed: differs from
`exStore` only in chore transactions. -/
def exStoreNoChoreTxn : Store :=
  ⟨[exParent, exChild], [exCt1, exCt2, exCt3], [exSub1, exSub2],
   [exTxnFine, exTxnPay], 10, 20⟩

/-- A store with no submissions and no transactions. -/
def exStoreEmpty : Store := ⟨[exParent, exChild], [exCt1], [], [], 0, 0⟩

/-- A store holding one already-approved submission and the `chore`
transaction its first approval emitted. -/
def exStore5 : Store :=
  ⟨[exParent, exChild], [exCt1], [exSub1], [exTxnChore], 10, 30⟩

/-- `exStore5` after a second approval of the already-approved
submission 1. -/
def exStore5After : Store :=
  match approve_submission exStore5 exNow 1 with
  | .ok t => t
  | .error _ => exStore5

/-- A store with just the two accounts (for the fine/payment routes). -/
def exStore6 : Store := ⟨[exParent, exChild], [], [], [], 0, 5⟩

/-- A sample batch form: request 1 of chore type 1 and 2 of chore type 2. -/
def exFc : Nat → Option Int :=
  fun tid => if tid == 1 then some 1 else if tid == 2 then some 2 else none

/-- A sample notes form: no notes. -/
def exFn : Nat → String := fun _ => ""

/-! ## Helper lemmas -/

/-- `find?` commutes with a map that does not change the predicate's
verdict. -/
theorem find?_map_pres {α : Type} (f : α → α) (p : α → Bool)
    (hp : ∀ a, p (f a) = p a) (l : List α) :
    (l.map f).find? p = (l.find? p).map f := by
  induction l with
  | nil => rfl
  | cons a l ih =>
    simp only [List.map_cons, List.find?_cons, hp]
    cases hpa : p a <;> simp [ih]

/-- Updating the list entries with key `sid` through an id-preserving `g`
maps the entry `find?` locates to its updated form. -/
theorem find?_update_eq (l : List ChoreSubmission) (sid : Nat)
    (g : ChoreSubmission → ChoreSubmission) (hg : ∀ x, (g x).id = x.id)
    (sub : ChoreSubmission) (h : l.find? (fun x => x.id == sid) = some sub) :
    (l.map (fun x => if x.id == sid then g x else x)).find?
      (fun x => x.id == sid) = some (g sub) := by
  have hp : ∀ x : ChoreSubmission,
      ((if x.id == sid then g x else x).id == sid) = (x.id == sid) := by
    intro x
    cases hx : x.id == sid
    · simp [hx]
    · simp [hx, hg]
  rw [find?_map_pres _ _ hp, h]
  have hs : (sub.id == sid) = true := @List.find?_some _ (fun x => x.id == sid) sub l h
  have hseq : sub.id = sid := by simpa using hs
  simp [hseq]

/-! ## C10: weekday slot lookup -/

/-- C10: for every template, `get_limit_for_day` indexed with
0, 1, …, 6 returns exactly the `sunday_limit`, `monday_limit`, …,
`saturday_limit` fields, i.e. slot 0 is Sunday and slot 6 is Saturday. -/
theorem get_limit_for_day_slots (ct : ChoreType) :
    ct.get_limit_for_day 0 = ct.sunday_limit ∧
    ct.get_limit_for_day 1 = ct.monday_limit ∧
    ct.get_limit_for_day 2 = ct.tuesday_limit ∧
    ct.get_limit_for_day 3 = ct.wednesday_limit ∧
    ct.get_limit_for_day 4 = ct.thursday_limit ∧
    ct.get_limit_for_day 5 = ct.friday_limit ∧
    ct.get_limit_for_day 6 = ct.saturday_limit :=
  ⟨rfl, rfl, rfl, rfl, rfl, rfl, rfl⟩

/-! ## C2: availability computation -/

/-- C2: with `limit` the template's slot for the target date's weekday and
`count` the number of this account's submissions of this template dated
that day: if `limit > 0` then `remaining = max 0 (limit - count)` and
`can_submit ↔ count < limit`; if `limit = 0` then `can_submit` holds for
every count and `remaining` is reported as unbounded (`none`). -/
theorem availability_spec (s : Store) (uid today : Nat) (ct : ChoreType) :
    (0 < ct.get_limit_for_day (dbWeekday today) →
      ((chore_availability s uid today ct).can_submit = true ↔
        (todayCount s uid ct.id today : Int) <
          ct.get_limit_for_day (dbWeekday today)) ∧
      (chore_availability s uid today ct).remaining =
        some (max 0 (ct.get_limit_for_day (dbWeekday today) -
          (todayCount s uid ct.id today : Int)))) ∧
    (ct.get_limit_for_day (dbWeekday today) = 0 →
      (chore_availability s uid today ct).can_submit = true ∧
      (chore_availability s uid today ct).remaining = none) := by
  constructor
  · intro h
    have hne : (ct.get_limit_for_day (dbWeekday today) == 0) = false := by
      simp only [beq_eq_false_iff_ne]
      omega
    constructor
    · simp [chore_availability, hne]
    · simp [chore_availability, hne]
  · intro h
    constructor
    · simp [chore_availability, h]
    · simp [chore_availability, h]

/-- Witness for C2: in `exStore` on day 3, "Clean Room" has limit 1,
one submission already made today, so 0 remain and no more can be
submitted. -/
theorem availability_spec_witness :
    0 < exCt1.get_limit_for_day (dbWeekday 3) ∧
    (((chore_availability exStore 7 3 exCt1).can_submit = true ↔
        (todayCount exStore 7 exCt1.id 3 : Int) <
          exCt1.get_limit_for_day (dbWeekday 3)) ∧
      (chore_availability exStore 7 3 exCt1).remaining =
        some (max 0 (exCt1.get_limit_for_day (dbWeekday 3) -
          (todayCount exStore 7 exCt1.id 3 : Int)))) :=
  ⟨by decide, (availability_spec exStore 7 3 exCt1).1 (by decide)⟩

/-! ## C9: child and parent dashboards compute the same balance -/

/-- C9: for every ledger state and child account, the balance the
child-facing dashboard computes equals the balance the parent-facing
dashboard computes over that account. -/
theorem balance_computed_identically (s : Store) (uid : Nat) :
    parent_dashboard_balance s uid = child_dashboard_balance s uid := by
  have hcomm : (s.submissions.filter (fun sub => sub.user_id == uid)).filter
      (fun sub => sub.status == "approved") =
      s.submissions.filter
        (fun sub => sub.user_id == uid && sub.status == "approved") := by
    rw [List.filter_filter]
    exact List.filter_congr (fun x _ => Bool.and_comm
      (x.status == "approved") (x.user_id == uid))
  simp only [parent_dashboard_balance, child_dashboard_balance]
  rw [hcomm]

/-! ## C1: the balance formula -/

/-- C1: for every account and every ledger history, the computed balance
equals `approved_earnings - total_fines - total_payments` (each defined by
the spec's §3 formula), and with no submissions and no transactions the
balance is 0. -/
theorem balance_formula (s : Store) (uid : Nat) :
    child_dashboard_balance s uid =
      spec_approved_earnings s uid - spec_total_fines s uid -
        spec_total_payments s uid ∧
    (s.submissions = [] ∧ s.transactions = [] →
      child_dashboard_balance s uid = 0) := by
  constructor
  · have hcomm : (s.submissions.filter (fun sub => sub.user_id == uid)).filter
        (fun sub => sub.status == "approved") =
        s.submissions.filter
          (fun sub => sub.user_id == uid && sub.status == "approved") := by
      rw [List.filter_filter]
      exact List.filter_congr (fun x _ => Bool.and_comm
        (x.status == "approved") (x.user_id == uid))
    simp only [child_dashboard_balance, spec_approved_earnings,
      spec_total_fines, spec_total_payments]
    rw [hcomm]
  · rintro ⟨h1, h2⟩
    simp [child_dashboard_balance, h1, h2]

/-- Witness for C1: the empty ledger has balance 0 (and the formula holds
on `exStore`, where the balance is 5 - 2 - 1 = 2). -/
theorem balance_formula_witness :
    (exStoreEmpty.submissions = [] ∧ exStoreEmpty.transactions = []) ∧
    child_dashboard_balance exStoreEmpty 7 = 0 ∧
    child_dashboard_balance exStore 7 =
      spec_approved_earnings exStore 7 - spec_total_fines exStore 7 -
        spec_total_payments exStore 7 :=
  ⟨⟨rfl, rfl⟩, (balance_formula exStoreEmpty 7).2 ⟨rfl, rfl⟩,
    (balance_formula exStore 7).1⟩

/-! ## C4: the approval contract -/

/-- C4: `approve_submission` fails with NotFound when no submission with
that id exists (and then changes nothing: no new state is produced); when
a submission exists, in one atomically returned state it appends exactly
one `chore` transaction carrying the template's value, sets the
submission's status to `"approved"` and stamps a non-null approval
timestamp, touching nothing else. -/
theorem approve_contract :
    (∀ (s : Store) (now : DateTime) (sid : Nat),
      s.submissions.find? (fun x => x.id == sid) = none →
      approve_submission s now sid = .error .notFound) ∧
    (∀ (s : Store) (now : DateTime) (sid : Nat) (sub : ChoreSubmission)
        (ct : ChoreType),
      s.submissions.find? (fun x => x.id == sid) = some sub →
      s.chore_types.find? (fun c => c.id == sub.chore_type_id) = some ct →
      ∃ s', approve_submission s now sid = .ok s' ∧
        s'.transactions = s.transactions ++
          [⟨s.next_txn_id, sub.user_id, "chore", "Approved: " ++ ct.name,
            ct.value, now⟩] ∧
        s'.submissions.find? (fun x => x.id == sid) =
          some { sub with status := "approved", date_approved := some now } ∧
        s'.users = s.users ∧ s'.chore_types = s.chore_types ∧
        s'.submissions.length = s.submissions.length) := by
  constructor
  · intro s now sid h
    unfold approve_submission
    rw [h]
  · intro s now sid sub ct hfind hct
    have happ : approve_submission s now sid = .ok { s with
        submissions := s.submissions.map (fun x =>
          if x.id == sid then
            { x with status := "approved", date_approved := some now }
          else x),
        transactions := s.transactions ++
          [⟨s.next_txn_id, sub.user_id, "chore",
            "Approved: " ++ s.choreTypeName sub.chore_type_id,
            s.choreTypeValue sub.chore_type_id, now⟩],
        next_txn_id := s.next_txn_id + 1 } := by
      unfold approve_submission
      rw [hfind]
    refine ⟨_, happ, ?_, ?_, rfl, rfl, by simp⟩
    · simp [Store.choreTypeName, Store.choreTypeValue, ctName, ctValue, hct]
    · exact find?_update_eq s.submissions sid
        (fun x => { x with status := "approved", date_approved := some now })
        (fun x => rfl) sub hfind

/-- Witness for C4: in `exStore` approving the pending submission 2 of
"Clean Room" (value 5) succeeds as described, and approving the absent
id 99 fails NotFound. -/
theorem approve_contract_witness :
    approve_submission exStore exNow 99 = .error .notFound ∧
    (∃ s', approve_submission exStore exNow 2 = .ok s' ∧
      s'.transactions = exStore.transactions ++
        [⟨exStore.next_txn_id, exSub2.user_id, "chore",
          "Approved: " ++ exCt1.name, exCt1.value, exNow⟩] ∧
      s'.submissions.find? (fun x => x.id == 2) =
        some { exSub2 with status := "approved",
                           date_approved := some exNow } ∧
      s'.users = exStore.users ∧ s'.chore_types = exStore.chore_types ∧
      s'.submissions.length = exStore.submissions.length) :=
  ⟨approve_contract.1 exStore exNow 99 (by decide),
   approve_contract.2 exStore exNow 2 exSub2 exCt1 (by decide) (by decide)⟩

/-! ## C5: re-approval -/

/-- Summing `g` over a filtered list is unchanged by a map that preserves
the filter's verdict and `g`'s value. -/
theorem sum_filter_map_pres (f : ChoreSubmission → ChoreSubmission)
    (p : ChoreSubmission → Bool) (g : ChoreSubmission → ℚ)
    (l : List ChoreSubmission)
    (hp : ∀ x ∈ l, p (f x) = p x) (hg : ∀ x ∈ l, g (f x) = g x) :
    (((l.map f).filter p).map g).sum = ((l.filter p).map g).sum := by
  induction l with
  | nil => rfl
  | cons a l ih =>
    have hpa := hp a (List.mem_cons_self a l)
    have hga := hg a (List.mem_cons_self a l)
    have ih' := ih (fun x hx => hp x (List.mem_cons_of_mem a hx))
      (fun x hx => hg x (List.mem_cons_of_mem a hx))
    simp only [List.map_cons, List.filter_cons, hpa]
    cases hqa : p a <;> simp [hqa, ih', hga]

/-- Appending a transaction the filter rejects does not change the
filtered list. -/
theorem filter_append_nonmatching (l : List Transaction) (t : Transaction)
    (p : Transaction → Bool) (hpt : p t = false) :
    (l ++ [t]).filter p = l.filter p := by
  rw [List.filter_append]
  simp [List.filter_cons, hpt]

/-- C5 counterexample: in `exStore5` submission 1 is already approved and
one `chore` transaction (amount 5) exists.  Re-approving it succeeds and
emits a second `chore` transaction, but the account's earnings are NOT
duplicated: approved earnings and the balance are unchanged (5, not 10),
because the balance never reads `chore` transactions. -/
theorem reapproval_no_duplicate_earnings :
    approve_submission exStore5 exNow 1 = .ok exStore5After ∧
    (exStore5After.transactions.filter (fun t => t.type == "chore")).length
      = 2 ∧
    spec_approved_earnings exStore5 7 = 5 ∧
    spec_approved_earnings exStore5After 7 = 5 ∧
    child_dashboard_balance exStore5 7 = 5 ∧
    child_dashboard_balance exStore5After 7 = 5 :=
  ⟨rfl, by decide,
   by norm_num [spec_approved_earnings, exStore5, exSub1, exCt1,
     Store.choreTypeValue, ctValue, List.filter, List.find?],
   by norm_num [spec_approved_earnings, exStore5After, approve_submission,
     exStore5, exSub1, exCt1, exNow, Store.choreTypeValue, ctValue,
     Store.choreTypeName, ctName, List.filter, List.find?],
   by
     have h1 : (("chore" : String) == "fine") = false := by decide
     have h2 : (("chore" : String) == "payment") = false := by decide
     norm_num [child_dashboard_balance, exStore5, exSub1, exCt1,
       exTxnChore, Store.choreTypeValue, ctValue, List.filter, List.find?,
       h1, h2],
   by
     have h1 : (("chore" : String) == "fine") = false := by decide
     have h2 : (("chore" : String) == "payment") = false := by decide
     norm_num [child_dashboard_balance, exStore5After, approve_submission,
       exStore5, exSub1, exCt1, exNow, exTxnChore, Store.choreTypeValue,
       ctValue, Store.choreTypeName, ctName, List.filter, List.find?,
       h1, h2]⟩

/-- C5 (amended): re-approving an already-approved submission re-stamps
its approval timestamp to the current instant and emits a second `chore`
transaction for the same submission; however, this does NOT duplicate the
account's earnings: the computed balance (which reads approved
submissions and fine/payment transactions only) is unchanged for every
account. -/
theorem reapproval_behavior (s : Store) (now : DateTime) (sid : Nat)
    (sub : ChoreSubmission) (ct : ChoreType)
    (hfind : s.submissions.find? (fun x => x.id == sid) = some sub)
    (happr : ∀ x ∈ s.submissions, x.id = sid → x.status = "approved")
    (hct : s.chore_types.find? (fun c => c.id == sub.chore_type_id)
      = some ct) :
    ∃ s', approve_submission s now sid = .ok s' ∧
      s'.transactions = s.transactions ++
        [⟨s.next_txn_id, sub.user_id, "chore", "Approved: " ++ ct.name,
          ct.value, now⟩] ∧
      s'.submissions.find? (fun x => x.id == sid) =
        some { sub with status := "approved", date_approved := some now } ∧
      ∀ uid, child_dashboard_balance s' uid
        = child_dashboard_balance s uid := by
  have happ : approve_submission s now sid = .ok { s with
      submissions := s.submissions.map (fun x =>
        if x.id == sid then
          { x with status := "approved", date_approved := some now }
        else x),
      transactions := s.transactions ++
        [⟨s.next_txn_id, sub.user_id, "chore",
          "Approved: " ++ s.choreTypeName sub.chore_type_id,
          s.choreTypeValue sub.chore_type_id, now⟩],
      next_txn_id := s.next_txn_id + 1 } := by
    unfold approve_submission
    rw [hfind]
  refine ⟨_, happ, ?_, ?_, ?_⟩
  · simp [Store.choreTypeName, Store.choreTypeValue, ctName, ctValue, hct]
  · exact find?_update_eq s.submissions sid
      (fun x => { x with status := "approved", date_approved := some now })
      (fun x => rfl) sub hfind
  · intro uid
    have hchore : ((("chore" : String) == "fine") = false) ∧
        ((("chore" : String) == "payment") = false) := by decide
    have hfine : ((s.transactions ++ [(⟨s.next_txn_id, sub.user_id, "chore",
        "Approved: " ++ s.choreTypeName sub.chore_type_id,
        ctValue s.chore_types sub.chore_type_id, now⟩ : Transaction)]).filter
          (fun t => t.user_id == uid && t.type == "fine"))
        = s.transactions.filter
            (fun t => t.user_id == uid && t.type == "fine") := by
      apply filter_append_nonmatching
      simp [hchore.1]
    have hpay : ((s.transactions ++ [(⟨s.next_txn_id, sub.user_id, "chore",
        "Approved: " ++ s.choreTypeName sub.chore_type_id,
        ctValue s.chore_types sub.chore_type_id, now⟩ : Transaction)]).filter
          (fun t => t.user_id == uid && t.type == "payment"))
        = s.transactions.filter
            (fun t => t.user_id == uid && t.type == "payment") := by
      apply filter_append_nonmatching
      simp [hchore.2]
    simp only [child_dashboard_balance, Store.choreTypeValue]
    rw [hfine, hpay]
    rw [List.filter_filter, List.filter_filter]
    rw [sum_filter_map_pres]
    · intro x hx
      cases hxid : x.id == sid
      · simp [hxid]
      · have hx1 : x.status = "approved" :=
          happr x hx (by simpa using hxid)
        simp [hxid, hx1]
    · intro x hx
      cases hxid : x.id == sid <;> simp [hxid]

/-- Witness for C5 (amended): applied to `exStore5`. -/
theorem reapproval_behavior_witness :
    exStore5.submissions.find? (fun x => x.id == 1) = some exSub1 ∧
    (∃ s', approve_submission exStore5 exNow 1 = .ok s' ∧
      s'.transactions = exStore5.transactions ++
        [⟨exStore5.next_txn_id, exSub1.user_id, "chore",
          "Approved: " ++ exCt1.name, exCt1.value, exNow⟩] ∧
      s'.submissions.find? (fun x => x.id == 1) =
        some { exSub1 with status := "approved",
                           date_approved := some exNow } ∧
      ∀ uid, child_dashboard_balance s' uid
        = child_dashboard_balance exStore5 uid) :=
  ⟨by decide,
   reapproval_behavior exStore5 exNow 1 exSub1 exCt1 (by decide)
     (by decide) (by decide)⟩

/-! ## C6: fine / payment input validation -/

/-- C6 counterexample: the handlers do not check positivity (or
finiteness) of the amount.  `add_fine` with amount `"-2.50"` — not a
positive number — succeeds and appends a `fine` transaction of amount
-5/2, and `add_payment` with amount `"-1"` succeeds likewise, where the
claim requires an InvalidInput failure with nothing appended. -/
theorem fine_accepts_negative_amount :
    parseFloat? "-2.50" = some (-(5 / 2 : ℚ)) ∧
    ¬ (0 < (-(5 / 2 : ℚ))) ∧
    (add_fine exStore6 (some "Broke a rule") (some "-2.50") exNow).2
      = "Fine added successfully!" ∧
    (add_fine exStore6 (some "Broke a rule") (some "-2.50") exNow).1.transactions
      = [⟨5, 7, "fine", "Broke a rule", -(5 / 2 : ℚ), exNow⟩] ∧
    (add_payment exStore6 (some "-1") exNow).2 = "Payment recorded!" ∧
    (add_payment exStore6 (some "-1") exNow).1.transactions
      = [⟨5, 7, "payment", "Payment made", -(1 : ℚ), exNow⟩] := by
  have h250 : (-(5 / 2 : ℚ)) = (-1 : ℚ) * ((2 : ℚ) + (50 : ℚ) / (10 : ℚ) ^ 2) := by
    norm_num
  have h1 : (-(1 : ℚ)) = (-1 : ℚ) * (1 : ℚ) := by norm_num
  refine ⟨?_, by norm_num, ?_, ?_, ?_, ?_⟩
  · rw [h250]
    exact rfl
  · rfl
  · rw [h250]
    exact rfl
  · rfl
  · rw [h1]
    exact rfl

/-- C6 (amended): `add_fine` / `add_payment` fail (appending nothing) when
the amount is missing, empty or unparsable, and `add_fine` also fails when
the description is missing or empty; on success exactly one `fine` /
`payment` transaction is appended and nothing else changes.  The code
performs NO positivity or finiteness check: every string that parses as a
number — including a non-positive one — is accepted. -/
theorem fine_payment_validation (s : Store) (now : DateTime)
    (d a : String) (child : User)
    (hchild : s.users.find? (fun u => u.role == "child") = some child) :
    (d ≠ "" → a ≠ "" →
      (parseFloat? a = none →
        add_fine s (some d) (some a) now = (s, "Invalid amount")) ∧
      (∀ q, parseFloat? a = some q →
        (add_fine s (some d) (some a) now).2 = "Fine added successfully!" ∧
        (add_fine s (some d) (some a) now).1.transactions
          = s.transactions ++ [⟨s.next_txn_id, child.id, "fine", d, q, now⟩] ∧
        (add_fine s (some d) (some a) now).1.submissions = s.submissions ∧
        (add_fine s (some d) (some a) now).1.users = s.users ∧
        (add_fine s (some d) (some a) now).1.chore_types = s.chore_types)) ∧
    (d = "" ∨ a = "" →
      add_fine s (some d) (some a) now = (s, "Please fill all fields")) ∧
    (a ≠ "" →
      (parseFloat? a = none →
        add_payment s (some a) now = (s, "Invalid amount")) ∧
      (∀ q, parseFloat? a = some q →
        (add_payment s (some a) now).2 = "Payment recorded!" ∧
        (add_payment s (some a) now).1.transactions
          = s.transactions ++
            [⟨s.next_txn_id, child.id, "payment", "Payment made", q, now⟩] ∧
        (add_payment s (some a) now).1.submissions = s.submissions ∧
        (add_payment s (some a) now).1.users = s.users ∧
        (add_payment s (some a) now).1.chore_types = s.chore_types)) ∧
    (a = "" → add_payment s (some a) now = (s, "Please enter an amount")) := by
  refine ⟨?_, ?_, ?_, ?_⟩
  · intro hd ha
    constructor
    · intro hparse
      unfold add_fine
      rw [hchild]
      dsimp only
      rw [if_pos ⟨hd, ha⟩, hparse]
    · intro q hparse
      unfold add_fine
      rw [hchild]
      dsimp only
      rw [if_pos ⟨hd, ha⟩, hparse]
      exact ⟨rfl, rfl, rfl, rfl, rfl⟩
  · intro hor
    unfold add_fine
    rw [hchild]
    dsimp only
    rw [if_neg]
    intro hand
    rcases hor with h | h
    · exact hand.1 h
    · exact hand.2 h
  · intro ha
    constructor
    · intro hparse
      unfold add_payment
      rw [hchild]
      dsimp only
      rw [if_pos ha, hparse]
    · intro q hparse
      unfold add_payment
      rw [hchild]
      dsimp only
      rw [if_pos ha, hparse]
      exact ⟨rfl, rfl, rfl, rfl, rfl⟩
  · intro ha
    unfold add_payment
    rw [hchild]
    dsimp only
    rw [if_neg (fun hne => hne ha)]

/-- Witness for C6 (amended): in `exStore6`, a valid fine of `"4"` is
appended and an unparsable amount `"abc"` is rejected. -/
theorem fine_payment_validation_witness :
    exStore6.users.find? (fun u => u.role == "child") = some exChild ∧
    add_fine exStore6 (some "Late") (some "abc") exNow
      = (exStore6, "Invalid amount") ∧
    (add_fine exStore6 (some "Late") (some "4") exNow).1.transactions
      = exStore6.transactions ++
        [⟨exStore6.next_txn_id, exChild.id, "fine", "Late", 4, exNow⟩] ∧
    add_payment exStore6 (some "") exNow
      = (exStore6, "Please enter an amount") := by
  have h4 : parseFloat? "4" = some 4 := by
    rw [(by norm_num : (4 : ℚ) = (1 : ℚ) * (4 : ℚ))]
    exact rfl
  refine ⟨by decide, ?_, ?_, ?_⟩
  · exact (fine_payment_validation exStore6 exNow "Late" "abc" exChild
      (by decide)).1 (by decide) (by decide) |>.1 (by decide)
  · exact ((fine_payment_validation exStore6 exNow "Late" "4" exChild
      (by decide)).1 (by decide) (by decide) |>.2 4 h4).2.1
  · exact (fine_payment_validation exStore6 exNow "Late" "" exChild
      (by decide)).2.2.2 rfl

/-! ## C7: the balance never reads chore transactions -/

/-- Pointwise change of one chore type's value shifts the summed
contribution by (number of referencing entries) times the difference. -/
theorem sum_map_value_edit (g : Nat → ℚ) (c : Nat) (v' : ℚ)
    (l : List ChoreSubmission) :
    (l.map (fun sub => if sub.chore_type_id == c then v'
        else g sub.chore_type_id)).sum
      = (l.map (fun sub => g sub.chore_type_id)).sum
        + ((l.filter (fun sub => sub.chore_type_id == c)).length : ℚ)
          * (v' - g c) := by
  induction l with
  | nil => simp
  | cons a l ih =>
    cases ha : a.chore_type_id == c with
    | false =>
      have hne : ¬ ((a.chore_type_id == c) = true) := by simp [ha]
      simp only [List.map_cons, List.sum_cons, List.filter_cons, if_neg hne]
      rw [ih]
      ring
    | true =>
      have heq : (a.chore_type_id == c) = true := ha
      have hac : a.chore_type_id = c := by simpa using ha
      simp only [List.map_cons, List.sum_cons, List.filter_cons, if_pos heq,
        List.length_cons]
      rw [ih, hac]
      push_cast
      ring

/-- Value lookup after `set_template_value`: the edited template resolves
to the new value, every other id resolves as before. -/
theorem choreTypeValue_set (s : Store) (ctid : Nat) (v : ℚ) (ct : ChoreType)
    (hct : s.chore_types.find? (fun c => c.id == ctid) = some ct)
    (tid : Nat) :
    (set_template_value s ctid v).choreTypeValue tid
      = if tid == ctid then v else s.choreTypeValue tid := by
  have hp : ∀ c : ChoreType,
      ((if c.id == ctid then { c with value := v } else c).id == tid)
        = (c.id == tid) := by
    intro c
    cases hc : c.id == ctid <;> simp [hc]
  unfold Store.choreTypeValue set_template_value ctValue
  dsimp only
  rw [find?_map_pres _ _ hp]
  cases htid : tid == ctid with
  | false =>
    have hne : tid ≠ ctid := by simpa using htid
    cases hfind : s.chore_types.find? (fun c => c.id == tid) with
    | none => simp [htid]
    | some c =>
      have hcid : c.id = tid := by
        simpa using
          (@List.find?_some _ (fun c => c.id == tid) c s.chore_types hfind)
      simp [hcid, hne, htid]
  | true =>
    have heq : tid = ctid := by simpa using htid
    subst heq
    rw [hct]
    have hc1 : (ct.id == tid) = true :=
      @List.find?_some _ (fun c => c.id == tid) ct s.chore_types hct
    have hcteq : ct.id = tid := by simpa using hc1
    simp [hcteq]

/-- C7: the displayed balance is a function only of the approved
submissions (valued at their template's current value) and the fine and
payment transactions.  First part: two stores with the same submissions
and templates that differ only in their `chore` transactions yield the
same balance.  Second part: editing a template's value shifts the balance
by (number of that account's approved submissions of that template) times
the value difference — already-approved submissions are revalued. -/
theorem balance_ignores_chore_transactions :
    (∀ (s₁ s₂ : Store) (uid : Nat),
      s₁.submissions = s₂.submissions →
      s₁.chore_types = s₂.chore_types →
      s₁.transactions.filter (fun t => !(t.type == "chore"))
        = s₂.transactions.filter (fun t => !(t.type == "chore")) →
      child_dashboard_balance s₁ uid = child_dashboard_balance s₂ uid) ∧
    (∀ (s : Store) (ctid : Nat) (v' : ℚ) (ct : ChoreType) (uid : Nat),
      s.chore_types.find? (fun c => c.id == ctid) = some ct →
      child_dashboard_balance (set_template_value s ctid v') uid
        = child_dashboard_balance s uid
          + (((s.submissions.filter (fun sub => sub.user_id == uid)).filter
                (fun sub => sub.status == "approved")).filter
              (fun sub => sub.chore_type_id == ctid)).length
            * (v' - ct.value)) := by
  constructor
  · intro s₁ s₂ uid hsubs hcts htxn
    have hvfun : (fun sub : ChoreSubmission =>
        s₁.choreTypeValue sub.chore_type_id)
        = (fun sub => s₂.choreTypeValue sub.chore_type_id) := by
      funext sub
      unfold Store.choreTypeValue
      rw [hcts]
    have hty : ∀ ty : String, ty ≠ "chore" →
        s₁.transactions.filter (fun t => t.user_id == uid && t.type == ty)
          = s₂.transactions.filter
              (fun t => t.user_id == uid && t.type == ty) := by
      intro ty hne
      have hsub : ∀ l : List Transaction,
          l.filter (fun t => t.user_id == uid && t.type == ty)
            = (l.filter (fun t => !(t.type == "chore"))).filter
                (fun t => t.user_id == uid && t.type == ty) := by
        intro l
        rw [List.filter_filter]
        apply List.filter_congr
        intro t _
        cases hft : t.type == ty
        · simp [hft]
        · have h1 : t.type = ty := by simpa using hft
          have h2 : (t.type == "chore") = false := by
            rw [h1]
            exact beq_eq_false_iff_ne.mpr hne
          simp [hft, h2]
      rw [hsub s₁.transactions, hsub s₂.transactions, htxn]
    simp only [child_dashboard_balance]
    rw [hsubs, hvfun, hty "fine" (by decide), hty "payment" (by decide)]
  · intro s ctid v' ct uid hct
    have hsubs : (set_template_value s ctid v').submissions
        = s.submissions := rfl
    have htxns : (set_template_value s ctid v').transactions
        = s.transactions := rfl
    have hfun : (fun sub : ChoreSubmission =>
        (set_template_value s ctid v').choreTypeValue sub.chore_type_id)
        = (fun sub => if sub.chore_type_id == ctid then v'
            else s.choreTypeValue sub.chore_type_id) := by
      funext sub
      rw [choreTypeValue_set s ctid v' ct hct]
    have hval : s.choreTypeValue ctid = ct.value := by
      unfold Store.choreTypeValue ctValue
      rw [hct]
    simp only [child_dashboard_balance]
    rw [hsubs, htxns, hfun, sum_map_value_edit s.choreTypeValue ctid v',
      hval]
    ring

/-- Witness for C7: `exStore` and `exStore` minus its chore transaction
have the same balance; raising "Clean Room" from 5 to 7 raises the balance
by the one approved submission times 2. -/
theorem balance_ignores_chore_transactions_witness :
    (exStore.submissions = exStoreNoChoreTxn.submissions ∧
     exStore.chore_types = exStoreNoChoreTxn.chore_types ∧
     exStore.transactions.filter (fun t => !(t.type == "chore"))
       = exStoreNoChoreTxn.transactions.filter
           (fun t => !(t.type == "chore")) ∧
     child_dashboard_balance exStore 7
       = child_dashboard_balance exStoreNoChoreTxn 7) ∧
    (exStore.chore_types.find? (fun c => c.id == 1) = some exCt1 ∧
     child_dashboard_balance (set_template_value exStore 1 7) 7
       = child_dashboard_balance exStore 7
         + (((exStore.submissions.filter (fun sub => sub.user_id == 7)).filter
               (fun sub => sub.status == "approved")).filter
             (fun sub => sub.chore_type_id == 1)).length
           * ((7 : ℚ) - exCt1.value)) :=
  ⟨⟨by decide, by decide, by decide,
    balance_ignores_chore_transactions.1 exStore exStoreNoChoreTxn 7
      (by decide) (by decide) (by decide)⟩,
   ⟨by decide,
    balance_ignores_chore_transactions.2 exStore 1 7 exCt1 7 (by decide)⟩⟩

/-! ## Machinery for the `submit_chore` batch loop (C3, C8) -/

/-- Every submission a `mkSubmissions` run creates is a pending
submission of the given chore type, account, and note. -/
theorem mkSubmissions_mem (uid ctid : Nat) (now : DateTime)
    (notes : Option String) (fid n : Nat) :
    ∀ sub ∈ mkSubmissions uid ctid now notes fid n,
      sub.chore_type_id = ctid ∧ sub.status = "pending" ∧
      sub.user_id = uid ∧ sub.notes = notes := by
  intro sub hsub
  simp only [mkSubmissions, List.mem_map, List.mem_range] at hsub
  obtain ⟨i, _, rfl⟩ := hsub
  exact ⟨rfl, rfl, rfl, rfl⟩

/-- `mkSubmissions` creates exactly `n` records. -/
theorem mkSubmissions_length (uid ctid : Nat) (now : DateTime)
    (notes : Option String) (fid n : Nat) :
    (mkSubmissions uid ctid now notes fid n).length = n := by
  simp [mkSubmissions]

/-- Filtering a `mkSubmissions` run by its own chore type keeps it all. -/
theorem mkSubmissions_filter_self (uid ctid : Nat) (now : DateTime)
    (notes : Option String) (fid n : Nat) :
    (mkSubmissions uid ctid now notes fid n).filter
      (fun sub => sub.chore_type_id == ctid)
      = mkSubmissions uid ctid now notes fid n :=
  List.filter_eq_self.mpr (fun a ha => by
    simp [(mkSubmissions_mem uid ctid now notes fid n a ha).1])

/-- Filtering a `mkSubmissions` run by a different chore type drops it
all. -/
theorem mkSubmissions_filter_ne (uid ctid : Nat) (now : DateTime)
    (notes : Option String) (fid n : Nat) (tid : Nat) (h : ctid ≠ tid) :
    (mkSubmissions uid ctid now notes fid n).filter
      (fun sub => sub.chore_type_id == tid) = [] :=
  List.filter_eq_nil_iff.mpr (fun a ha => by
    simp [(mkSubmissions_mem uid ctid now notes fid n a ha).1, h])

/-- One loop iteration adds no submission of a chore type other than its
own. -/
theorem submitStep_fst_filter_ne (s : Store) (uid : Nat) (now : DateTime)
    (fc : Nat → Option Int) (fn : Nat → String)
    (acc : List ChoreSubmission × List String × List String)
    (ct : ChoreType) (tid : Nat) (h : ct.id ≠ tid) :
    ((submitStep s uid now fc fn acc ct).1).filter
      (fun sub => sub.chore_type_id == tid)
      = acc.1.filter (fun sub => sub.chore_type_id == tid) := by
  unfold submitStep
  cases hpc : processClaim s uid now.day fc fn ct with
  | skipped => rfl
  | rejected msg => rfl
  | admitted n notes =>
    dsimp only
    rw [List.filter_append, mkSubmissions_filter_ne uid ct.id now notes
      (s.next_sub_id + acc.1.length) n tid h, List.append_nil]

/-- Iterating over chore types whose ids all differ from `tid` adds no
submission of chore type `tid`. -/
theorem foldl_fst_filter_ne (s : Store) (uid : Nat) (now : DateTime)
    (fc : Nat → Option Int) (fn : Nat → String) (ts : List ChoreType)
    (tid : Nat) (h : ∀ ct ∈ ts, ct.id ≠ tid)
    (acc : List ChoreSubmission × List String × List String) :
    ((ts.foldl (submitStep s uid now fc fn) acc).1).filter
      (fun sub => sub.chore_type_id == tid)
      = acc.1.filter (fun sub => sub.chore_type_id == tid) := by
  induction ts generalizing acc with
  | nil => rfl
  | cons ct ts ih =>
    rw [List.foldl_cons,
      ih (fun c hc => h c (List.mem_cons_of_mem ct hc)) _,
      submitStep_fst_filter_ne s uid now fc fn acc ct tid
        (h ct (List.mem_cons_self ct ts))]

/-- One loop iteration only appends to the error list. -/
theorem submitStep_errors (s : Store) (uid : Nat) (now : DateTime)
    (fc : Nat → Option Int) (fn : Nat → String)
    (acc : List ChoreSubmission × List String × List String)
    (ct : ChoreType) :
    ∃ m, (submitStep s uid now fc fn acc ct).2.2 = acc.2.2 ++ m := by
  unfold submitStep
  cases hpc : processClaim s uid now.day fc fn ct with
  | skipped => exact ⟨[], by simp⟩
  | rejected msg => exact ⟨[msg], rfl⟩
  | admitted n notes => exact ⟨[], by simp⟩

/-- The loop only appends to the error list. -/
theorem foldl_errors_suffix (s : Store) (uid : Nat) (now : DateTime)
    (fc : Nat → Option Int) (fn : Nat → String) (ts : List ChoreType)
    (acc : List ChoreSubmission × List String × List String) :
    ∃ l, (ts.foldl (submitStep s uid now fc fn) acc).2.2
      = acc.2.2 ++ l := by
  induction ts generalizing acc with
  | nil => exact ⟨[], by simp⟩
  | cons ct ts ih =>
    rw [List.foldl_cons]
    obtain ⟨m, hm⟩ := submitStep_errors s uid now fc fn acc ct
    obtain ⟨l, hl⟩ := ih (submitStep s uid now fc fn acc ct)
    exact ⟨m ++ l, by rw [hl, hm, List.append_assoc]⟩

/-- Every submission the loop creates belongs to one of the iterated
chore types. -/
theorem submitStep_fst_mem (s : Store) (uid : Nat) (now : DateTime)
    (fc : Nat → Option Int) (fn : Nat → String)
    (acc : List ChoreSubmission × List String × List String)
    (ct : ChoreType) :
    ∀ sub ∈ (submitStep s uid now fc fn acc ct).1,
      sub ∈ acc.1 ∨ sub.chore_type_id = ct.id := by
  intro sub hsub
  unfold submitStep at hsub
  cases hpc : processClaim s uid now.day fc fn ct with
  | skipped =>
    rw [hpc] at hsub
    exact .inl hsub
  | rejected msg =>
    rw [hpc] at hsub
    exact .inl hsub
  | admitted n notes =>
    rw [hpc] at hsub
    dsimp only at hsub
    rw [List.mem_append] at hsub
    rcases hsub with h | h
    · exact .inl h
    · exact .inr (mkSubmissions_mem uid ct.id now notes
        (s.next_sub_id + acc.1.length) n sub h).1

/-- Every submission the whole loop creates belongs to one of the
iterated chore types. -/
theorem foldl_fst_mem (s : Store) (uid : Nat) (now : DateTime)
    (fc : Nat → Option Int) (fn : Nat → String) (ts : List ChoreType)
    (acc : List ChoreSubmission × List String × List String) :
    ∀ sub ∈ (ts.foldl (submitStep s uid now fc fn) acc).1,
      sub ∈ acc.1 ∨ ∃ ct ∈ ts, sub.chore_type_id = ct.id := by
  induction ts generalizing acc with
  | nil => exact fun sub h => .inl h
  | cons ct ts ih =>
    intro sub h
    rw [List.foldl_cons] at h
    rcases ih (submitStep s uid now fc fn acc ct) sub h with
      h' | ⟨ct', hct', heq⟩
    · rcases submitStep_fst_mem s uid now fc fn acc ct sub h' with
        h'' | heq
      · exact .inl h''
      · exact .inr ⟨ct, List.mem_cons_self ct ts, heq⟩
    · exact .inr ⟨ct', List.mem_cons_of_mem ct hct', heq⟩

/-- Per-template outcome of a whole batch: a rejected claim contributes
no submission and its message reaches the returned error list; an
admitted claim contributes exactly its `mkSubmissions` run. -/
theorem submit_chore_per_template (s : Store) (uid : Nat) (now : DateTime)
    (fc : Nat → Option Int) (fn : Nat → String) (ct : ChoreType)
    (hct : ct ∈ s.chore_types) (hactive : ct.active = true)
    (hnodup : (s.chore_types.map ChoreType.id).Nodup) :
    (∀ msg, processClaim s uid now.day fc fn ct = .rejected msg →
      newSubmissionsFor s (submit_chore s uid now fc fn).1 ct.id = [] ∧
      msg ∈ (submit_chore s uid now fc fn).2.2) ∧
    (∀ n notes, processClaim s uid now.day fc fn ct = .admitted n notes →
      ∃ fid, newSubmissionsFor s (submit_chore s uid now fc fn).1 ct.id
        = mkSubmissions uid ct.id now notes fid n) := by
  have hmem : ct ∈ s.chore_types.filter (fun c => c.active) :=
    List.mem_filter.mpr ⟨hct, hactive⟩
  obtain ⟨ts₁, ts₂, hdec⟩ := List.append_of_mem hmem
  have hnodupA :
      ((s.chore_types.filter (fun c => c.active)).map ChoreType.id).Nodup :=
    List.Nodup.sublist
      (List.Sublist.map ChoreType.id (List.filter_sublist s.chore_types))
      hnodup
  rw [hdec, List.map_append, List.map_cons, List.nodup_append] at hnodupA
  obtain ⟨hn1, hn2, hdisj⟩ := hnodupA
  have h₁ : ∀ b ∈ ts₁, b.id ≠ ct.id := by
    intro b hb heq
    exact hdisj (List.mem_map_of_mem ChoreType.id hb)
      (by rw [heq]; exact List.mem_cons_self _ _)
  have h₂ : ∀ b ∈ ts₂, b.id ≠ ct.id := by
    rw [List.nodup_cons] at hn2
    intro b hb heq
    exact hn2.1 (heq ▸ List.mem_map_of_mem ChoreType.id hb)
  have hfoldeq : (s.chore_types.filter (fun c => c.active)).foldl
      (submitStep s uid now fc fn) ([], [], [])
      = ts₂.foldl (submitStep s uid now fc fn)
          (submitStep s uid now fc fn
            (ts₁.foldl (submitStep s uid now fc fn) ([], [], [])) ct) := by
    rw [hdec, List.foldl_append, List.foldl_cons]
  have hnew : newSubmissionsFor s (submit_chore s uid now fc fn).1 ct.id
      = ((ts₂.foldl (submitStep s uid now fc fn)
          (submitStep s uid now fc fn
            (ts₁.foldl (submitStep s uid now fc fn) ([], [], [])) ct)).1).filter
        (fun sub => sub.chore_type_id == ct.id) := by
    unfold newSubmissionsFor submit_chore
    dsimp only
    rw [hfoldeq, List.drop_left]
  have herr : (submit_chore s uid now fc fn).2.2
      = (ts₂.foldl (submitStep s uid now fc fn)
          (submitStep s uid now fc fn
            (ts₁.foldl (submitStep s uid now fc fn) ([], [], [])) ct)).2.2 := by
    unfold submit_chore
    dsimp only
    rw [hfoldeq]
  have hAfilter : ((ts₁.foldl (submitStep s uid now fc fn)
      ([], [], [])).1).filter (fun sub => sub.chore_type_id == ct.id)
      = [] := by
    rw [foldl_fst_filter_ne s uid now fc fn ts₁ ct.id h₁ ([], [], [])]
    rfl
  constructor
  · intro msg hmsg
    have hB1 : (submitStep s uid now fc fn
        (ts₁.foldl (submitStep s uid now fc fn) ([], [], [])) ct).1
        = (ts₁.foldl (submitStep s uid now fc fn) ([], [], [])).1 := by
      unfold submitStep
      rw [hmsg]
    have hB3 : (submitStep s uid now fc fn
        (ts₁.foldl (submitStep s uid now fc fn) ([], [], [])) ct).2.2
        = (ts₁.foldl (submitStep s uid now fc fn) ([], [], [])).2.2
          ++ [msg] := by
      unfold submitStep
      rw [hmsg]
    constructor
    · rw [hnew, foldl_fst_filter_ne s uid now fc fn ts₂ ct.id h₂ _, hB1,
        hAfilter]
    · obtain ⟨l, hl⟩ := foldl_errors_suffix s uid now fc fn ts₂
        (submitStep s uid now fc fn
          (ts₁.foldl (submitStep s uid now fc fn) ([], [], [])) ct)
      rw [herr, hl, hB3]
      simp
  · intro n notes hpc
    have hB1 : (submitStep s uid now fc fn
        (ts₁.foldl (submitStep s uid now fc fn) ([], [], [])) ct).1
        = (ts₁.foldl (submitStep s uid now fc fn) ([], [], [])).1
          ++ mkSubmissions uid ct.id now notes
            (s.next_sub_id +
              (ts₁.foldl (submitStep s uid now fc fn) ([], [], [])).1.length)
            n := by
      unfold submitStep
      rw [hpc]
    refine ⟨s.next_sub_id +
      (ts₁.foldl (submitStep s uid now fc fn) ([], [], [])).1.length, ?_⟩
    rw [hnew, foldl_fst_filter_ne s uid now fc fn ts₂ ct.id h₂ _, hB1,
      List.filter_append, hAfilter, mkSubmissions_filter_self,
      List.nil_append]

/-- Evaluating `processClaim` when the form carries a positive count. -/
theorem processClaim_eval (s : Store) (uid today : Nat)
    (fc : Nat → Option Int) (fn : Nat → String) (ct : ChoreType)
    (count : Int) (hcount : fc ct.id = some count) (hpos : 0 < count) :
    processClaim s uid today fc fn ct =
      if 0 < ct.get_limit_for_day (dbWeekday today) ∧
          ct.get_limit_for_day (dbWeekday today)
            - (todayCount s uid ct.id today : Int) < count then
        .rejected (rejectionMsg ct count
          (ct.get_limit_for_day (dbWeekday today)
            - (todayCount s uid ct.id today : Int)))
      else .admitted count.toNat
        (if strip (fn ct.id) = "" then none
          else some (strip (fn ct.id))) := by
  unfold processClaim
  rw [hcount]
  dsimp only
  rw [if_neg (by omega : ¬ count ≤ 0)]

/-! ## C3: batch admission control -/

/-- C3: for every batch and every active template claimed with a positive
count: if the template's limit for today is positive and the count
exceeds the remaining allowance, no submission at all is created for this
template and a rejection message distinguishing `remaining = 0` ("Daily
limit already reached") from `remaining > 0` ("Only N more allowed
today") is emitted; otherwise exactly `count` pending submissions are
created, all owned by the submitting account and carrying the same
optional note.  The theorem holds for each template of the batch
independently of every other template's outcome. -/
theorem submit_chore_admission (s : Store) (uid : Nat) (now : DateTime)
    (fc : Nat → Option Int) (fn : Nat → String) (ct : ChoreType)
    (hct : ct ∈ s.chore_types) (hactive : ct.active = true)
    (hnodup : (s.chore_types.map ChoreType.id).Nodup)
    (count : Int) (hcount : fc ct.id = some count) (hpos : 0 < count) :
    (0 < ct.get_limit_for_day (dbWeekday now.day) ∧
        ct.get_limit_for_day (dbWeekday now.day)
          - (todayCount s uid ct.id now.day : Int) < count →
      newSubmissionsFor s (submit_chore s uid now fc fn).1 ct.id = [] ∧
      (0 < ct.get_limit_for_day (dbWeekday now.day)
          - (todayCount s uid ct.id now.day : Int) →
        (ct.name ++ ": Only " ++
            toString (ct.get_limit_for_day (dbWeekday now.day)
              - (todayCount s uid ct.id now.day : Int)) ++
            " more allowed today (tried to submit " ++
            toString count ++ ")")
          ∈ (submit_chore s uid now fc fn).2.2) ∧
      (ct.get_limit_for_day (dbWeekday now.day)
          - (todayCount s uid ct.id now.day : Int) ≤ 0 →
        (ct.name ++ ": Daily limit already reached")
          ∈ (submit_chore s uid now fc fn).2.2)) ∧
    (¬ (0 < ct.get_limit_for_day (dbWeekday now.day) ∧
        ct.get_limit_for_day (dbWeekday now.day)
          - (todayCount s uid ct.id now.day : Int) < count) →
      (newSubmissionsFor s (submit_chore s uid now fc fn).1 ct.id).length
        = count.toNat ∧
      ∀ sub ∈ newSubmissionsFor s (submit_chore s uid now fc fn).1 ct.id,
        sub.status = "pending" ∧ sub.user_id = uid ∧
        sub.notes = (if strip (fn ct.id) = "" then none
          else some (strip (fn ct.id)))) := by
  have hper := submit_chore_per_template s uid now fc fn ct hct hactive
    hnodup
  have hpc := processClaim_eval s uid now.day fc fn ct count hcount hpos
  constructor
  · intro hover
    rw [if_pos hover] at hpc
    obtain ⟨hempty, hmemm⟩ := hper.1 _ hpc
    refine ⟨hempty, ?_, ?_⟩
    · intro hrem
      have hmsg : rejectionMsg ct count
          (ct.get_limit_for_day (dbWeekday now.day)
            - (todayCount s uid ct.id now.day : Int))
          = ct.name ++ ": Only " ++
            toString (ct.get_limit_for_day (dbWeekday now.day)
              - (todayCount s uid ct.id now.day : Int)) ++
            " more allowed today (tried to submit " ++
            toString count ++ ")" := by
        unfold rejectionMsg
        rw [if_pos hrem]
      exact hmsg ▸ hmemm
    · intro hrem
      have hmsg : rejectionMsg ct count
          (ct.get_limit_for_day (dbWeekday now.day)
            - (todayCount s uid ct.id now.day : Int))
          = ct.name ++ ": Daily limit already reached" := by
        unfold rejectionMsg
        rw [if_neg (by omega : ¬ ct.get_limit_for_day (dbWeekday now.day)
          - (todayCount s uid ct.id now.day : Int) > 0)]
      exact hmsg ▸ hmemm
  · intro hover
    rw [if_neg hover] at hpc
    obtain ⟨fid, heq⟩ := hper.2 _ _ hpc
    constructor
    · rw [heq, mkSubmissions_length]
    · intro sub hsubm
      rw [heq] at hsubm
      have h := mkSubmissions_mem uid ct.id now
        (if strip (fn ct.id) = "" then none else some (strip (fn ct.id)))
        fid count.toNat sub hsubm
      exact ⟨h.2.1, h.2.2.1, h.2.2.2⟩

/-- Witness for C3 on `exStore` (day 3): "Clean Room" (limit 1, already
submitted once today) is claimed once more and rejected with the
daily-limit message, while "Dishes" (limit 0, unlimited) claimed twice in
the same batch is admitted with 2 pending submissions — the rejection of
one template does not block the other. -/
theorem submit_chore_admission_witness :
    (newSubmissionsFor exStore (submit_chore exStore 7 exNow exFc exFn).1 1
        = [] ∧
      ("Clean Room: Daily limit already reached")
        ∈ (submit_chore exStore 7 exNow exFc exFn).2.2) ∧
    ((newSubmissionsFor exStore
        (submit_chore exStore 7 exNow exFc exFn).1 2).length
      = (2 : Int).toNat ∧
      ∀ sub ∈ newSubmissionsFor exStore
          (submit_chore exStore 7 exNow exFc exFn).1 2,
        sub.status = "pending" ∧ sub.user_id = 7 ∧
        sub.notes = (if strip (exFn 2) = "" then none
          else some (strip (exFn 2)))) := by
  have h1 := (submit_chore_admission exStore 7 exNow exFc exFn exCt1
    (by decide) (by decide) (by decide) 1 (by decide) (by decide)).1
    (by decide)
  have h2 := (submit_chore_admission exStore 7 exNow exFc exFn exCt2
    (by decide) (by decide) (by decide) 2 (by decide) (by decide)).2
    (by decide)
  exact ⟨⟨h1.1, h1.2.2 (by decide)⟩, h2⟩

/-! ## C8: no admission against an inactive template -/

/-- C8: every submission present after a batch either already existed or
references a chore type that was active (in the pre-batch store) at
admission time — the admission controller never creates a submission
against an inactive template. -/
theorem no_inactive_admission (s : Store) (uid : Nat) (now : DateTime)
    (fc : Nat → Option Int) (fn : Nat → String) (sub : ChoreSubmission)
    (hsub : sub ∈ (submit_chore s uid now fc fn).1.submissions) :
    sub ∈ s.submissions ∨
      ∃ ct, ct ∈ s.chore_types ∧ ct.active = true ∧
        sub.chore_type_id = ct.id := by
  unfold submit_chore at hsub
  dsimp only at hsub
  rw [List.mem_append] at hsub
  rcases hsub with h | h
  · exact .inl h
  · rcases foldl_fst_mem s uid now fc fn
      (s.chore_types.filter (fun c => c.active)) ([], [], []) sub h with
      h' | ⟨ct, hmem, heq⟩
    · exact absurd h' (List.not_mem_nil sub)
    · rw [List.mem_filter] at hmem
      exact .inr ⟨ct, hmem.1, hmem.2, heq⟩

/-- Witness for C8: the first "Dishes" submission created by the sample
batch references the active template 2. -/
theorem no_inactive_admission_witness :
    (⟨10, 7, 2, "pending", exNow, none, none⟩ : ChoreSubmission)
      ∈ (submit_chore exStore 7 exNow exFc exFn).1.submissions ∧
    ((⟨10, 7, 2, "pending", exNow, none, none⟩ : ChoreSubmission)
        ∈ exStore.submissions ∨
      ∃ ct, ct ∈ exStore.chore_types ∧ ct.active = true ∧
        (⟨10, 7, 2, "pending", exNow, none, none⟩ :
          ChoreSubmission).chore_type_id = ct.id) :=
  ⟨by decide,
   no_inactive_admission exStore 7 exNow exFc exFn
     ⟨10, 7, 2, "pending", exNow, none, none⟩ (by decide)⟩

end ChoreApp
